import Mathlib

/-!
Verification of the companion attachment-layer core against its source:
coordinate mapping (lib/Resources/Util.js), schema migration
(lib/Data/Upgrade.js) and the Elgato plugin protocol service
(lib/Service/ElgatoPlugin.js).  All key indices are small non-negative
machine numbers in the source, so they are modelled with Nat (with Int for
values that can be the -1 sentinel or that the protocol subtracts from).
-/

namespace Companion

/-- Global constant set in the application bootstrap: global.MAX_BUTTONS = 32. -/
def MAX_BUTTONS : Nat := 32

/-- Global constant set in the application bootstrap: global.MAX_BUTTONS_PER_ROW = 8. -/
def MAX_BUTTONS_PER_ROW : Nat := 8

/-- Embedding of from15to32 (lib/Resources/Util.js).  The JS code subtracts 1
from the incoming 1.indexed key; callers pass key >= 1, where Nat subtraction
agrees with JS subtraction. -/
def from15to32 (key : Nat) : Nat :=
  let k := key - 1
  let rows := k / 5
  let col := k % 5 + 1
  let res := rows * 8 + col
  if res ≥ 32 then 31 else res

/-- Embedding of toDeviceKey (lib/Resources/Util.js).  The JS comparison
`row >= keysTotal / keysPerRow` uses real division; for keysPerRow > 0 it is
equivalent to `row * keysPerRow >= keysTotal`, which is the form used here. -/
def toDeviceKey (keysTotal keysPerRow key : Nat) : Int :=
  if keysTotal = MAX_BUTTONS then (key : Int)
  else if key % MAX_BUTTONS_PER_ROW > keysPerRow then -1
  else
    let row := key / MAX_BUTTONS_PER_ROW
    let col := key % MAX_BUTTONS_PER_ROW
    if row * keysPerRow ≥ keysTotal ∨ col ≥ keysPerRow then -1
    else ((row * keysPerRow + col : Nat) : Int)

/-- Embedding of toGlobalKey (lib/Resources/Util.js). -/
def toGlobalKey (keysPerRow key : Nat) : Nat :=
  let rows := key / keysPerRow
  let col := key % keysPerRow
  rows * MAX_BUTTONS_PER_ROW + col

/-- DeviceLayout invariants from the spec data model: keysPerRow is a positive
row width of at most COLS and divides keysTotal. -/
def LayoutInvariant (keysTotal keysPerRow : Nat) : Prop :=
  0 < keysPerRow ∧ keysPerRow ≤ MAX_BUTTONS_PER_ROW ∧ keysPerRow ∣ keysTotal

instance (keysTotal keysPerRow : Nat) : Decidable (LayoutInvariant keysTotal keysPerRow) := by
  unfold LayoutInvariant
  infer_instance

/-- Modelled from the spec: the claim C1 description of toDeviceKey, for
comparison with the source embedding.  It treats only the full identity layout
(32 total keys AND 8 keys per row) as the identity shortcut, and otherwise
uses the row/column bounds test with row = key / 8, col = key % 8. -/
def toDeviceKeySpecC1 (keysTotal keysPerRow key : Nat) : Int :=
  if keysTotal = 32 ∧ keysPerRow = 8 then (key : Int)
  else
    if key % 8 ≥ keysPerRow ∨ key / 8 ≥ keysTotal / keysPerRow then -1
    else ((key / 8) * keysPerRow + key % 8 : Nat)

/-- Claim C1 (counterexample): the claim's description of toDeviceKey is false
on the source.  The layout (32, 4) satisfies the DeviceLayout invariants and is
not the identity layout (32, 8), yet the code's identity shortcut fires because
it tests only keysTotal == 32: at logical key 4 the code returns 4 while the
claim's formula gives -1 (column 4 is outside [0, 4)). -/
theorem toDeviceKey_identity_counterexample :
    LayoutInvariant 32 4 ∧ (4 : Nat) < MAX_BUTTONS ∧
      toDeviceKey 32 4 4 = 4 ∧ toDeviceKeySpecC1 32 4 4 = -1 := by
  decide

/-- Claim C1 (amended): for every layout satisfying the DeviceLayout invariants
and every logical key in [0, 32), if keysTotal equals 32 (regardless of
keysPerRow) then toDeviceKey returns the key unchanged; otherwise, with
row = key / 8 and col = key % 8, it returns -1 exactly when col is outside
[0, keysPerRow) or row is outside [0, keysTotal / keysPerRow), and
row * keysPerRow + col otherwise. -/
theorem toDeviceKey_characterization (kt kpr key : Nat)
    (hpos : 0 < kpr) (hle : kpr ≤ MAX_BUTTONS_PER_ROW) (hdvd : kpr ∣ kt)
    (hkey : key < MAX_BUTTONS) :
    toDeviceKey kt kpr key =
      if kt = 32 then (key : Int)
      else if key % 8 ≥ kpr ∨ key / 8 ≥ kt / kpr then -1
      else (((key / 8) * kpr + key % 8 : Nat) : Int) := by
  obtain ⟨m, hm⟩ := hdvd
  have hle8 : kpr ≤ 8 := hle
  have hdiveq : kt / kpr = m := by rw [hm]; exact Nat.mul_div_cancel_left m hpos
  simp only [toDeviceKey, MAX_BUTTONS, MAX_BUTTONS_PER_ROW]
  rw [hdiveq]
  by_cases hkt : kt = 32
  · rw [if_pos hkt, if_pos hkt]
  · rw [if_neg hkt, if_neg hkt]
    have hiff : (key / 8 * kpr ≥ kt) ↔ (key / 8 ≥ m) := by
      rw [hm]
      constructor
      · intro h
        exact Nat.le_of_mul_le_mul_left (le_of_le_of_eq h (Nat.mul_comm _ _)) hpos
      · intro h
        calc kpr * m ≤ kpr * (key / 8) := Nat.mul_le_mul (Nat.le_refl kpr) h
          _ = key / 8 * kpr := Nat.mul_comm _ _
    generalize hA : key / 8 * kpr = A at hiff ⊢
    split_ifs with h1 h2 h3 <;> first | rfl | omega

/-- Claim C1 witness: the spec's own worked example, layout (15, 5) at logical
key 10: row 1, column 2, device key 1 * 5 + 2 = 7. -/
theorem toDeviceKey_characterization_witness :
    0 < 5 ∧ 5 ≤ MAX_BUTTONS_PER_ROW ∧ (5 : Nat) ∣ 15 ∧ 10 < MAX_BUTTONS ∧
      toDeviceKey 15 5 10 = 7 := by
  refine ⟨by decide, by decide, by decide, by decide, ?_⟩
  rw [toDeviceKey_characterization 15 5 10 (by decide) (by decide) (by decide) (by decide)]
  decide

/-- Claim C2 (counterexample): the claimed sample values of from15to32 are all
wrong; already the first one fails, from15to32 1 = 1, not 0 (the code maps the
legacy column k % 5 to current column k % 5 + 1). -/
theorem from15to32_spec_values_false :
    ¬ (from15to32 1 = 0 ∧ from15to32 6 = 8 ∧ from15to32 15 = 18) := by
  decide

/-- Claim C2 (amended): the actual values computed by from15to32 on the
claimed inputs are from15to32 1 = 1, from15to32 6 = 9 and from15to32 15 = 21. -/
theorem from15to32_values :
    from15to32 1 = 1 ∧ from15to32 6 = 9 ∧ from15to32 15 = 21 := by
  decide

/-- Claim C3 (counterexample): the round-trip law fails on the valid layout
(32, 4) at device key 4: toGlobalKey maps it to global key 8, and toDeviceKey's
identity shortcut (keysTotal == 32) returns 8, not 4. -/
theorem roundTrip_counterexample :
    LayoutInvariant 32 4 ∧ (4 : Nat) < 32 ∧
      toDeviceKey 32 4 (toGlobalKey 4 4) ≠ 4 := by
  decide

/-- Claim C3 (amended): for every layout satisfying the DeviceLayout invariants
that is not a 32-key layout with a row width below 8 (the identity shortcut
fires on any 32-key layout and bypasses the inverse mapping), and every device
key within the layout's bounds, toDeviceKey inverts toGlobalKey. -/
theorem toDeviceKey_toGlobalKey_roundTrip (kt kpr dk : Nat)
    (hpos : 0 < kpr) (hle : kpr ≤ MAX_BUTTONS_PER_ROW) (hdvd : kpr ∣ kt)
    (hdk : dk < kt) (hnot : kt ≠ MAX_BUTTONS ∨ kpr = MAX_BUTTONS_PER_ROW) :
    toDeviceKey kt kpr (toGlobalKey kpr dk) = (dk : Int) := by
  have hle8 : kpr ≤ 8 := hle
  simp only [toDeviceKey, toGlobalKey, MAX_BUTTONS, MAX_BUTTONS_PER_ROW]
  have hqr : kpr * (dk / kpr) + dk % kpr = dk := Nat.div_add_mod dk kpr
  have hrlt : dk % kpr < kpr := Nat.mod_lt _ hpos
  generalize hqdef : dk / kpr = q at hqr ⊢
  generalize hrdef : dk % kpr = r at hqr hrlt ⊢
  have hmod : (q * 8 + r) % 8 = r := by omega
  have hdiv8 : (q * 8 + r) / 8 = q := by omega
  rw [hmod, hdiv8]
  by_cases hkt : kt = 32
  · have hkpr8 : kpr = 8 := by
      rcases hnot with h | h
      · exact absurd hkt h
      · exact h
    rw [hkpr8] at hqr
    rw [if_pos hkt]
    omega
  · rw [if_neg hkt]
    rw [Nat.mul_comm kpr q] at hqr
    generalize hA : q * kpr = A at hqr ⊢
    split_ifs with h1 h2
    · omega
    · omega
    · omega

/-- Claim C3 witness: the non-identity layout (15, 5) recovers device key 7
through the round trip. -/
theorem toDeviceKey_toGlobalKey_roundTrip_witness :
    0 < 5 ∧ 5 ≤ MAX_BUTTONS_PER_ROW ∧ (5 : Nat) ∣ 15 ∧ 7 < 15 ∧
      ((15 : Nat) ≠ MAX_BUTTONS ∨ (5 : Nat) = MAX_BUTTONS_PER_ROW) ∧
      toDeviceKey 15 5 (toGlobalKey 5 7) = 7 :=
  ⟨by decide, by decide, by decide, by decide, by decide,
    toDeviceKey_toGlobalKey_roundTrip 15 5 7 (by decide) (by decide) (by decide)
      (by decide) (by decide)⟩

/-- Claim C10: for every input key >= 1, from15to32 returns a value between 1
and 31: the mapped column k % 5 + 1 is at least 1, so the result is never 0,
and any computed result of 32 or more is clamped to 31. -/
theorem from15to32_range (key : Nat) (h : 1 ≤ key) :
    1 ≤ from15to32 key ∧ from15to32 key ≤ 31 := by
  simp only [from15to32]
  split_ifs with hres <;> omega

/-- Claim C10 witness: the bound holds at input 6. -/
theorem from15to32_range_witness :
    1 ≤ 6 ∧ 1 ≤ from15to32 6 ∧ from15to32 6 ≤ 31 :=
  ⟨by decide, (from15to32_range 6 (by decide)).1, (from15to32_range 6 (by decide)).2⟩

/-- Model of the persisted store handle passed to upgradeStartup
(lib/Data/Upgrade.js): the page_config_version key (absent when never
stamped; getKey supplies the default 1) plus an abstract payload standing for
everything else in the store. -/
structure Db (α : Type) where
  page_config_version : Option Nat
  data : α
deriving DecidableEq

/-- Model of a standalone exported configuration object passed to
upgradeImport: its own version field (absent defaults to 1) plus an abstract
payload. -/
structure ImportObj (α : Type) where
  version : Option Nat
  data : α
deriving DecidableEq

/-- Model of one entry of the allUpgrades list (the bodies of v1tov2.js and
v2tov3.js are not part of the shown core, so the step transforms are abstract
parameters): a mandatory startup transform on the live store and an optional
transform on an exported object (in the source the import transform may be
absent from a module, modelled by Option). -/
structure UpgradeScript (α : Type) where
  upgradeStartup : Db α → Db α
  upgradeImport : Option (ImportObj α → ImportObj α)

/-- Observable effects of upgradeStartup, in order: the best-effort backup
snapshot written before step i, the application of step i, stamping the
version key, and the forced durable save. -/
inductive UpgradeEvent
  | snapshot (i : Nat)
  | step (i : Nat)
  | stamp (v : Nat)
  | save
deriving DecidableEq

/-- Index extractor for step events. -/
def stepIndex : UpgradeEvent → Option Nat
  | .step i => some i
  | _ => none

/-- Indices of the upgrade steps applied in an event trace, in order. -/
def stepsOf (evs : List UpgradeEvent) : List Nat :=
  evs.filterMap stepIndex

/-- Application of allUpgrades[i - 1].upgradeStartup to the store.  The source
indexes the 1-based version i into the 0-based list; the loop bounds of
upgradeStartup keep i - 1 in range whenever the stored version is >= 1. -/
def applyStep (scripts : List (UpgradeScript α)) (i : Nat) (db : Db α) : Db α :=
  match scripts.get? (i - 1) with
  | some s => s.upgradeStartup db
  | none => db

/-- Embedding of the migration loop of upgradeStartup: for i from the current
version while i < targetVersion, write a snapshot copy, then run step i.  The
first argument counts the remaining iterations. -/
def runLoop (scripts : List (UpgradeScript α)) : Nat → Nat → Db α → Db α × List UpgradeEvent
  | 0, _, db => (db, [])
  | n + 1, i, db =>
    let next := runLoop scripts n (i + 1) (applyStep scripts i db)
    (next.1, .snapshot i :: .step i :: next.2)

/-- Fatal message reported by upgradeStartup when the store is newer than the
software (lib/Data/Upgrade.js). -/
def fatalUpgradeMessage : String :=
  "You have previously installed a much newer version of companion. Since the configuration files are incompatible between major versions of companion, you need to remove the old config before continuing with this version."

/-- Embedding of upgradeStartup (lib/Data/Upgrade.js).  targetVersion is
allUpgrades.length + 1; showFatalError followed by process.exit(1) is modelled
as Except.error (nothing further happens on that path); the ok branch carries
the migrated store and the trace of observable effects. -/
def upgradeStartup (scripts : List (UpgradeScript α)) (db : Db α) :
    Except String (Db α × List UpgradeEvent) :=
  let targetVersion := scripts.length + 1
  let currentVersion := db.page_config_version.getD 1
  if currentVersion > targetVersion then
    .error fatalUpgradeMessage
  else
    let run := runLoop scripts (targetVersion - currentVersion) currentVersion db
    .ok (⟨some targetVersion, run.1.data⟩, run.2 ++ [.stamp targetVersion, .save])

/-- Version read performed by upgradeImport: obj.version || 1 in the source,
so an absent field and the falsy value 0 both read as 1. -/
def currentImportVersion (obj : ImportObj α) : Nat :=
  match obj.version with
  | none => 1
  | some v => if v = 0 then 1 else v

/-- Embedding of the import loop of upgradeImport: for i from the object's
version while i < targetVersion, run allUpgrades[i - 1].upgradeImport when the
module defines one.  Returns the transformed object and the list of the step
indices whose transform ran, in order. -/
def importLoop (scripts : List (UpgradeScript α)) :
    Nat → Nat → ImportObj α → ImportObj α × List Nat
  | 0, _, obj => (obj, [])
  | n + 1, i, obj =>
    match (scripts.get? (i - 1)).bind (fun s => s.upgradeImport) with
    | some f =>
      let next := importLoop scripts n (i + 1) (f obj)
      (next.1, i :: next.2)
    | none => importLoop scripts n (i + 1) obj

/-- Embedding of upgradeImport (lib/Data/Upgrade.js): run the optional
transforms, then stamp obj.version with targetVersion and return the object
(paired here with the applied step indices). -/
def upgradeImport (scripts : List (UpgradeScript α)) (obj : ImportObj α) :
    ImportObj α × List Nat :=
  let targetVersion := scripts.length + 1
  let currentVersion := currentImportVersion obj
  let run := importLoop scripts (targetVersion - currentVersion) currentVersion obj
  (⟨some targetVersion, run.1.data⟩, run.2)

/-- Claim C5: when the stored version exceeds the target version,
upgradeStartup fails fatally with the source's message; on this path no
upgrade step runs and the store is neither stamped nor saved (the error result
carries no migrated store and no effect trace). -/
theorem upgradeStartup_fatal_on_newer (α : Type) (scripts : List (UpgradeScript α))
    (db : Db α) (h : db.page_config_version.getD 1 > scripts.length + 1) :
    upgradeStartup scripts db = .error fatalUpgradeMessage := by
  simp only [upgradeStartup]
  rw [if_pos h]

/-- Claim C5 witness: a store stamped 5 against a software target of 1. -/
theorem upgradeStartup_fatal_on_newer_witness :
    (Db.page_config_version (⟨some 5, 0⟩ : Db Nat)).getD 1 >
        List.length ([] : List (UpgradeScript Nat)) + 1 ∧
      upgradeStartup ([] : List (UpgradeScript Nat)) ⟨some 5, 0⟩ =
        .error fatalUpgradeMessage :=
  ⟨by decide, upgradeStartup_fatal_on_newer Nat [] ⟨some 5, 0⟩ (by decide)⟩

/-- Steps recorded by the migration loop: exactly i, i + 1, ..., i + n - 1. -/
theorem stepsOf_runLoop (α : Type) (scripts : List (UpgradeScript α)) :
    ∀ (n i : Nat) (db : Db α), stepsOf (runLoop scripts n i db).2 = List.range' i n := by
  intro n
  induction n with
  | zero => intro i db; rfl
  | succ n ih =>
    intro i db
    simp only [runLoop, stepsOf, List.filterMap_cons, stepIndex, List.range']
    exact congrArg (i :: ·) (ih (i + 1) (applyStep scripts i db))

/-- Claim C6: on a store at version v with 1 <= v <= target, upgradeStartup
succeeds, applying exactly the steps v, v + 1, ..., target - 1 (each once, in
strictly ascending order, and none at all when v = target), after which the
store is stamped with the target version and a durable save is forced. -/
theorem upgradeStartup_steps (α : Type) (scripts : List (UpgradeScript α)) (db : Db α)
    (h1 : 1 ≤ db.page_config_version.getD 1)
    (h2 : db.page_config_version.getD 1 ≤ scripts.length + 1) :
    ∃ db' pre,
      upgradeStartup scripts db = .ok (db', pre ++ [.stamp (scripts.length + 1), .save]) ∧
      stepsOf pre = List.range' (db.page_config_version.getD 1)
        (scripts.length + 1 - db.page_config_version.getD 1) ∧
      db'.page_config_version = some (scripts.length + 1) := by
  simp only [upgradeStartup]
  rw [if_neg (by omega)]
  exact ⟨_, _, rfl, stepsOf_runLoop α scripts _ _ db, rfl⟩

/-- Trivial upgrade script used to instantiate witnesses. -/
def idScript : UpgradeScript Nat :=
  ⟨fun db => db, none⟩

/-- Claim C6 witness: a store at version 1 migrated through two scripts to
target version 3. -/
theorem upgradeStartup_steps_witness :
    1 ≤ (Db.page_config_version (⟨some 1, 0⟩ : Db Nat)).getD 1 ∧
      (Db.page_config_version (⟨some 1, 0⟩ : Db Nat)).getD 1 ≤
        List.length [idScript, idScript] + 1 ∧
      ∃ db' pre,
        upgradeStartup [idScript, idScript] (⟨some 1, 0⟩ : Db Nat) =
            .ok (db', pre ++ [.stamp (List.length [idScript, idScript] + 1), .save]) ∧
          stepsOf pre =
            List.range' ((Db.page_config_version (⟨some 1, 0⟩ : Db Nat)).getD 1)
              (List.length [idScript, idScript] + 1 -
                (Db.page_config_version (⟨some 1, 0⟩ : Db Nat)).getD 1) ∧
          db'.page_config_version = some (List.length [idScript, idScript] + 1) :=
  ⟨by decide, by decide,
    upgradeStartup_steps Nat [idScript, idScript] ⟨some 1, 0⟩ (by decide) (by decide)⟩

/-- Transforms recorded by the import loop: the indices in i, ..., i + n - 1
whose script defines an import transform, in ascending order. -/
theorem importLoop_applied (α : Type) (scripts : List (UpgradeScript α)) :
    ∀ (n i : Nat) (obj : ImportObj α),
      (importLoop scripts n i obj).2 =
        (List.range' i n).filter
          (fun j => ((scripts.get? (j - 1)).bind (fun s => s.upgradeImport)).isSome) := by
  intro n
  induction n with
  | zero => intro i obj; rfl
  | succ n ih =>
    intro i obj
    simp only [List.range']
    rw [List.filter_cons]
    cases h : (scripts.get? (i - 1)).bind (fun s => s.upgradeImport) with
    | some f =>
      simp only [importLoop, h, Option.isSome_some, if_pos]
      exact congrArg (i :: ·) (ih (i + 1) (f obj))
    | none =>
      simp only [importLoop, h, Option.isSome_none, Bool.false_eq_true, if_neg]
      exact ih (i + 1) obj

/-- Claim C7: upgradeImport applies exactly the defined optional transforms
for the versions from the object's version (default 1 when the field is
absent) up to target - 1, in order, stamps the object with the target version,
and is idempotent with respect to the version field: re-importing the
already-current result applies zero transforms and only reasserts the stamp. -/
theorem upgradeImport_spec (α : Type) (scripts : List (UpgradeScript α))
    (obj : ImportObj α) :
    (upgradeImport scripts obj).1.version = some (scripts.length + 1) ∧
      (upgradeImport scripts obj).2 =
        (List.range' (currentImportVersion obj)
            (scripts.length + 1 - currentImportVersion obj)).filter
          (fun j => ((scripts.get? (j - 1)).bind (fun s => s.upgradeImport)).isSome) ∧
      upgradeImport scripts (upgradeImport scripts obj).1 =
        ((upgradeImport scripts obj).1, []) := by
  refine ⟨rfl, importLoop_applied α scripts _ _ obj, ?_⟩
  simp only [upgradeImport, currentImportVersion]
  rw [if_neg (by omega : ¬(scripts.length + 1 = 0))]
  simp only [Nat.sub_self, importLoop]

/-- Opaque rendered button image returned by the graphics collaborator
(graphics.getBank): only the buffer matters to this service. -/
structure ButtonImage where
  buffer : Nat
deriving DecidableEq

/-- Command and response names appearing on the wire in
lib/Service/ElgatoPlugin.js. -/
inductive WireName
  | version
  | new_device
  | request_button
  | fillImage
deriving DecidableEq

/-- Argument payloads of replies sent with socket.apireply. -/
inductive ReplyArgs
  | resultOk
  | resultTrue
  | versionOnly (v : Int)
  | versionError (v : Int) (error : String)
deriving DecidableEq

/-- Outbound application message: either a reply to a command
(socket.apireply) or an unsolicited push (socket.apicommand, here always
fillImage with page, bank, keyIndex and image data). -/
inductive OutMsg
  | reply (response : WireName) (args : ReplyArgs)
  | push (command : WireName) (page bank keyIndex : Int) (data : Nat)
deriving DecidableEq

/-- One registered V2 plugin session: the socket identity and its
button_listeners subscription entries, modelled as the set of (page, bank)
pairs stored under socket.button_listeners[page][bank].  (The source also
creates dynamic and static sub-objects inside button_listeners, but neither
is ever read or written again; subscriptions live directly under the page
keys.) -/
structure V2Session where
  id : Nat
  listeners : List (Int × Int)
deriving DecidableEq

/-- Service-wide state: the registered sessions and this.client, the single
current push target, identified by socket id (in the source this.client is a
reference to the most recently registered socket). -/
structure ServiceState where
  sessions : List V2Session
  client : Option Nat
deriving DecidableEq

/-- Look up a session by socket identity. -/
def getSession (st : ServiceState) (sid : Nat) : Option V2Session :=
  st.sessions.find? (fun s => s.id == sid)

/-- Mutate the session with the given socket identity in place (reference
update on the socket object in the source). -/
def updateSession (st : ServiceState) (sid : Nat) (f : V2Session → V2Session) :
    ServiceState :=
  ⟨st.sessions.map (fun s => if s.id == sid then f s else s), st.client⟩

/-- Insertion of button_listeners[page][bank] = 1: adding a key to a JS object
is idempotent. -/
def insertListener (pb : Int × Int) (l : List (Int × Int)) : List (Int × Int) :=
  if pb ∈ l then l else pb :: l

/-- Embedding of handleBankChanged (lib/Service/ElgatoPlugin.js): on a
graphics_bank_invalidated signal (page, bank) the handler decrements bank,
and if this.client exists with that (page, bank - 1) entry among its
button_listeners, pushes one fillImage built from
graphics.getBank(page, (bank - 1) + 1).  Output is the list of
(target socket id, message) pairs sent. -/
def handleBankChanged (getBank : Int → Int → ButtonImage) (st : ServiceState)
    (page bank : Int) : List (Nat × OutMsg) :=
  let b := bank - 1
  match st.client with
  | none => []
  | some cid =>
    match getSession st cid with
    | none => []
    | some c =>
      if (page, b) ∈ c.listeners then
        [(cid, .push .fillImage page b b (getBank page (b + 1)).buffer)]
      else []

/-- Embedding of the request_button handler installed by initAPI2: record
socket.button_listeners[page][bank] = 1, reply with result ok, then call
handleBankChanged(page, bank + 1) so the current image is pushed at once. -/
def handleRequestButton (getBank : Int → Int → ButtonImage) (st : ServiceState)
    (sid : Nat) (page bank : Int) : ServiceState × List (Nat × OutMsg) :=
  let st' := updateSession st sid
    (fun s => ⟨s.id, insertListener (page, bank) s.listeners⟩)
  (st', (sid, .reply .request_button .resultOk) ::
    handleBankChanged getBank st' page (bank + 1))

/-- Embedding of the new_device handler of initAPI2: create the session with
empty button_listeners, point this.client at it, reply new_device with
result true.  (Registration with the surface controller is an external
collaborator call.) -/
def registerV2 (st : ServiceState) (sid : Nat) : ServiceState × List (Nat × OutMsg) :=
  (⟨⟨sid, []⟩ :: st.sessions, some sid⟩, [(sid, .reply .new_device .resultTrue)])

/-- Mode a connection is left in after version negotiation: closed, the v1
API, or the v2 API. -/
inductive SocketMode
  | closed
  | api1
  | api2
deriving DecidableEq

/-- The new_device handler is installed only by initAPI1 and initAPI2, so only
those modes can register a device. -/
def canRegisterDevice : SocketMode → Bool
  | .closed => false
  | .api1 => true
  | .api2 => true

/-- Error string attached to the rejection reply. -/
def cannotContinueError : String :=
  "cannot continue"

/-- Embedding of the version handler of initSocket
(lib/Service/ElgatoPlugin.js).  In JS, undefined > 2 and undefined === 1 are
both false, so a missing version falls through to the v2 branch, exactly as
the none case here. -/
def handleVersion : Option Int → SocketMode × OutMsg
  | some v =>
    if v > 2 then (.closed, .reply .version (.versionError 2 cannotContinueError))
    else if v = 1 then (.api1, .reply .version (.versionOnly 1))
    else (.api2, .reply .version (.versionOnly 2))
  | none => (.api2, .reply .version (.versionOnly 2))

/-- Claim C8: a version message with v > 2 is answered with an error reply
carrying the server's maximum supported version (2) and leaves the connection
closed, a mode in which no device registration can occur; v = 1 is answered
with version 1 and proceeds under the v1 protocol; any other value, 0 and a
missing version included, is answered with version 2 and proceeds under the v2
protocol. -/
theorem handleVersion_spec (v : Int) :
    (v > 2 →
      handleVersion (some v) =
          (.closed, .reply .version (.versionError 2 cannotContinueError)) ∧
        canRegisterDevice (handleVersion (some v)).1 = false) ∧
      handleVersion (some 1) = (.api1, .reply .version (.versionOnly 1)) ∧
      (v ≤ 2 → v ≠ 1 →
        handleVersion (some v) = (.api2, .reply .version (.versionOnly 2))) ∧
      handleVersion none = (.api2, .reply .version (.versionOnly 2)) := by
  refine ⟨fun h => ?_, by decide, fun h2 h1 => ?_, rfl⟩
  · rw [handleVersion, if_pos h]
    exact ⟨rfl, rfl⟩
  · rw [handleVersion, if_neg (by omega), if_neg h1]

/-- Claim C8 witness: version 3 is rejected and closed with no registration
possible, and version 0 proceeds under v2. -/
theorem handleVersion_spec_witness :
    ((3 : Int) > 2 ∧
      handleVersion (some 3) =
          (.closed, .reply .version (.versionError 2 cannotContinueError)) ∧
        canRegisterDevice (handleVersion (some 3)).1 = false) ∧
      ((0 : Int) ≤ 2 ∧ (0 : Int) ≠ 1 ∧
        handleVersion (some 0) = (.api2, .reply .version (.versionOnly 2))) :=
  ⟨⟨by decide, (handleVersion_spec 3).1 (by decide)⟩,
    by decide, by decide, (handleVersion_spec 0).2.2.1 (by decide) (by decide)⟩

/-- Finding a session by id in a list mutated at that id. -/
theorem find?_map_update (l : List V2Session) (sid : Nat) (f : V2Session → V2Session)
    (hf : ∀ s, (f s).id = s.id) :
    (l.map (fun s => if s.id == sid then f s else s)).find? (fun s => s.id == sid) =
      (l.find? (fun s => s.id == sid)).map f := by
  induction l with
  | nil => rfl
  | cons a l ih =>
    cases hb : (a.id == sid) with
    | true =>
      simp only [List.map_cons, List.find?_cons, hb, if_pos, hf]
      rfl
    | false =>
      simp only [List.map_cons, List.find?_cons, hb, if_neg, Bool.false_eq_true,
        not_false_eq_true]
      exact ih

/-- getSession after updateSession at the same id, for id-preserving
mutations. -/
theorem getSession_updateSession (st : ServiceState) (sid : Nat)
    (f : V2Session → V2Session) (hf : ∀ s, (f s).id = s.id) :
    getSession (updateSession st sid f) sid = (getSession st sid).map f :=
  find?_map_update st.sessions sid f hf

/-- Membership after insertListener. -/
theorem mem_insertListener (pb : Int × Int) (l : List (Int × Int)) :
    pb ∈ insertListener pb l := by
  unfold insertListener
  split_ifs with h
  · exact h
  · exact List.mem_cons_self pb l

/-- Evaluation of handleBankChanged when a current client session exists. -/
theorem handleBankChanged_eq_some (getBank : Int → Int → ButtonImage)
    (st : ServiceState) (page bank : Int) (sid : Nat) (c : V2Session)
    (hcl : st.client = some sid) (hses : getSession st sid = some c) :
    handleBankChanged getBank st page bank =
      if (page, bank - 1) ∈ c.listeners then
        [(sid, .push .fillImage page (bank - 1) (bank - 1)
          (getBank page (bank - 1 + 1)).buffer)]
      else [] := by
  unfold handleBankChanged
  rw [hcl]
  dsimp only
  rw [hses]

/-- Claim C4: in a V2 session that is the service's current client, a
request_button message for (page, bank) adds (page, bank) to the session's
subscription set, replies with result ok, and immediately pushes exactly one
fillImage message carrying the current image of that button. -/
theorem requestButton_spec (getBank : Int → Int → ButtonImage) (st : ServiceState)
    (sid : Nat) (c : V2Session) (page bank : Int)
    (hclient : st.client = some sid) (hsess : getSession st sid = some c) :
    (∃ c', getSession (handleRequestButton getBank st sid page bank).1 sid = some c' ∧
        (page, bank) ∈ c'.listeners) ∧
      (handleRequestButton getBank st sid page bank).2 =
        [(sid, .reply .request_button .resultOk),
          (sid, .push .fillImage page bank bank (getBank page (bank + 1)).buffer)] := by
  have hf : ∀ s : V2Session,
      (V2Session.mk s.id (insertListener (page, bank) s.listeners)).id = s.id :=
    fun s => rfl
  have hget : getSession (updateSession st sid
      (fun s => V2Session.mk s.id (insertListener (page, bank) s.listeners))) sid =
      some ⟨c.id, insertListener (page, bank) c.listeners⟩ := by
    rw [getSession_updateSession st sid _ hf, hsess]
    rfl
  have hcl' : (updateSession st sid
      (fun s => V2Session.mk s.id (insertListener (page, bank) s.listeners))).client =
      some sid := hclient
  have hbc := handleBankChanged_eq_some getBank
    (updateSession st sid (fun s => V2Session.mk s.id (insertListener (page, bank) s.listeners)))
    page (bank + 1) sid ⟨c.id, insertListener (page, bank) c.listeners⟩ hcl' hget
  have hb1 : bank + 1 - 1 = bank := by omega
  rw [hb1] at hbc
  rw [if_pos (mem_insertListener (page, bank) c.listeners)] at hbc
  refine ⟨⟨_, hget, mem_insertListener (page, bank) c.listeners⟩, ?_⟩
  show (sid, OutMsg.reply .request_button .resultOk) ::
      handleBankChanged getBank
        (updateSession st sid
          (fun s => V2Session.mk s.id (insertListener (page, bank) s.listeners)))
        page (bank + 1) =
    [(sid, .reply .request_button .resultOk),
      (sid, .push .fillImage page bank bank (getBank page (bank + 1)).buffer)]
  rw [hbc]

/-- Claim C4 witness: the spec's scenario, a freshly registered session with
id 7 requesting page 1 bank 3. -/
theorem requestButton_spec_witness :
    (∃ c', getSession
          (handleRequestButton (fun _ _ => ⟨9⟩) ⟨[⟨7, []⟩], some 7⟩ 7 1 3).1 7 =
          some c' ∧ ((1 : Int), (3 : Int)) ∈ c'.listeners) ∧
      (handleRequestButton (fun _ _ => ⟨9⟩) ⟨[⟨7, []⟩], some 7⟩ 7 1 3).2 =
        [(7, .reply .request_button .resultOk), (7, .push .fillImage 1 3 3 9)] :=
  requestButton_spec (fun _ _ => ⟨9⟩) ⟨[⟨7, []⟩], some 7⟩ 7 ⟨7, []⟩ 1 3 rfl rfl

/-- Claim C9: for a signaled image change (page, bank), every fillImage push
goes to the session this.client points at (the most recently registered V2
session, as the registration handler sets this.client to the new session);
the push happens exactly when that session subscribes to the button, carries
equal bank and keyIndex fields and the current image buffer, and no message is
sent to any other session. -/
theorem handleBankChanged_spec (getBank : Int → Int → ButtonImage)
    (st : ServiceState) (page bank : Int) :
    (∀ tgt msg, (tgt, msg) ∈ handleBankChanged getBank st page bank →
        st.client = some tgt ∧
          msg = .push .fillImage page (bank - 1) (bank - 1) (getBank page bank).buffer ∧
          ∃ c, getSession st tgt = some c ∧ (page, bank - 1) ∈ c.listeners) ∧
      (∀ sid c, st.client = some sid → getSession st sid = some c →
        (page, bank - 1) ∈ c.listeners →
        handleBankChanged getBank st page bank =
          [(sid, .push .fillImage page (bank - 1) (bank - 1) (getBank page bank).buffer)]) ∧
      (∀ sid c, st.client = some sid → getSession st sid = some c →
        (page, bank - 1) ∉ c.listeners →
        handleBankChanged getBank st page bank = []) ∧
      ∀ sid, ((registerV2 st sid).1).client = some sid := by
  have hb : bank - 1 + 1 = bank := by omega
  refine ⟨?_, ?_, ?_, fun sid => rfl⟩
  · intro tgt msg hmem
    cases hcl : st.client with
    | none => simp [handleBankChanged, hcl] at hmem
    | some cid =>
      cases hses : getSession st cid with
      | none => simp [handleBankChanged, hcl, hses] at hmem
      | some c =>
        rw [handleBankChanged_eq_some getBank st page bank cid c hcl hses] at hmem
        by_cases hin : (page, bank - 1) ∈ c.listeners
        · rw [if_pos hin, List.mem_singleton] at hmem
          have htgt : tgt = cid := congrArg Prod.fst hmem
          have hmsg : msg = .push .fillImage page (bank - 1) (bank - 1)
              (getBank page (bank - 1 + 1)).buffer := congrArg Prod.snd hmem
          subst htgt
          rw [hb] at hmsg
          exact ⟨rfl, hmsg, c, hses, hin⟩
        · rw [if_neg hin] at hmem
          cases hmem
  · intro sid c hcl hses hin
    rw [handleBankChanged_eq_some getBank st page bank sid c hcl hses, if_pos hin, hb]
  · intro sid c hcl hses hin
    rw [handleBankChanged_eq_some getBank st page bank sid c hcl hses, if_neg hin]

/-- Claim C9 witness: with session 5 subscribed to (1, 2) as the current
client, the signal (1, 3) produces exactly the one push to session 5. -/
theorem handleBankChanged_spec_witness :
    handleBankChanged (fun _ _ => ⟨4⟩) ⟨[⟨5, [(1, 2)]⟩], some 5⟩ 1 3 =
      [(5, .push .fillImage 1 2 2 4)] :=
  (handleBankChanged_spec (fun _ _ => ⟨4⟩) ⟨[⟨5, [(1, 2)]⟩], some 5⟩ 1 3).2.1 5
    ⟨5, [(1, 2)]⟩ rfl rfl (by decide)

end Companion
